import Mathlib

/-!
Verification development for the UnmanagedRtmpStream per-user streaming
coordinator.

Shallow embedding of the session/state coordinator:
  * the per-user live stream state and persistent settings maps
    (`activeUserStates`, `persistentUserSettings` of the app class),
  * the StreamController operations (`startStreamForUser`,
    `stopStreamForUser`, `startManagedStreamForUser`,
    `stopManagedStreamForUser`, `setRtmpUrlForUser`, `getRtmpUrlForUser`),
  * the status-event handlers installed in `onSession`
    (`onStreamStatus`, `onManagedStreamStatus`),
  * the session lifecycle (`onSession` creation, `onDisconnected` teardown),
  * the voice-command transcript handler (`onTranscription`).

Conventions of the embedding:
  * JavaScript `Map` objects become association lists keyed by `String`
    with overwrite-on-insert (`insertAssoc`) and first-match lookup
    (`lookupAssoc`).
  * The JavaScript falsy-coalescing `a || b` on strings (both `undefined`
    and the empty string are falsy) becomes `jsOrS`.
  * `new Date()` timestamps become an explicit `now : Nat` argument.
  * The awaited transport calls (`session.camera.startStream` etc.) are
    external collaborators: each operation takes the transport's response
    for its single request as an `Except String _` argument, and returns
    the ordered trace of session-state writes and transport requests it
    issued (`Event`), so that ordering and single-attempt behaviour are
    visible in the result.
  * `console.log` / `console.warn` / `showTextWall` calls are pure logging
    or UI side effects with no effect on the coordinator state; they are
    not modelled, except that `setRtmpUrlForUser` reports whether the
    non-fatal scheme warning fired (a `Bool` in its result).
  * The `session : TpaSession` back-reference held in each state entry is
    an opaque collaborator handle and carries no coordinator state; it is
    omitted from the embedded record.
-/

/-- Lifecycle phase of a stream, the `status` string field of the SDK
status objects: one of `stopped`, `initializing`, `active`, `error`. -/
inductive StreamPhase where
  | stopped
  | initializing
  | active
  | error
  deriving DecidableEq, Repr

/-- The `type` discriminator fields of SDK status messages
(`GlassesToCloudMessageType.RTMP_STREAM_STATUS`,
`CloudToAppMessageType.MANAGED_STREAM_STATUS`). Kept because the
`stopped` branch of the direct status handler re-asserts it. -/
inductive MsgType where
  | rtmpStreamStatus
  | managedStreamStatus
  | other
  deriving DecidableEq, Repr

/-- Embeds the SDK `RtmpStreamStatus` object as stored in
`UserStreamState.streamStatus`. -/
structure RtmpStreamStatus where
  msgType : MsgType
  status : StreamPhase
  errorDetails : Option String
  timestamp : Nat
  deriving DecidableEq, Repr

/-- Embeds the SDK `ManagedStreamStatus` object as stored in
`UserStreamState.managedStreamStatus`. -/
structure ManagedStreamStatus where
  msgType : MsgType
  status : StreamPhase
  hlsUrl : Option String
  dashUrl : Option String
  webrtcUrl : Option String
  streamId : Option String
  message : Option String
  timestamp : Nat
  deriving DecidableEq, Repr

/-- Embeds the `UserStreamState` interface (the `session : TpaSession`
back-reference is an opaque collaborator handle and is omitted). -/
structure UserStreamState where
  rtmpUrl : String
  streamStatus : RtmpStreamStatus
  managedStreamStatus : Option ManagedStreamStatus
  deriving DecidableEq, Repr

/-- Embeds the `UserPersistentSettings` interface. -/
structure UserPersistentSettings where
  rtmpUrl : String
  deriving DecidableEq, Repr

/-- The URL bundle returned by `session.camera.startManagedStream()`. -/
structure ManagedUrls where
  hlsUrl : String
  dashUrl : String
  webrtcUrl : String
  streamId : String
  deriving DecidableEq, Repr

/-- First-match lookup in an association list: embeds `Map.get`. -/
def lookupAssoc {α : Type} (l : List (String × α)) (k : String) : Option α :=
  match l with
  | [] => none
  | (k1, v) :: rest => if k1 = k then some v else lookupAssoc rest k

/-- Overwrite-or-append insertion in an association list: embeds
`Map.set`. -/
def insertAssoc {α : Type} (l : List (String × α)) (k : String) (v : α) :
    List (String × α) :=
  match l with
  | [] => [(k, v)]
  | (k1, v1) :: rest =>
    if k1 = k then (k, v) :: rest else (k1, v1) :: insertAssoc rest k v

/-- Key removal from an association list: embeds `Map.delete`. -/
def eraseAssoc {α : Type} (l : List (String × α)) (k : String) :
    List (String × α) :=
  match l with
  | [] => []
  | (k1, v1) :: rest =>
    if k1 = k then eraseAssoc rest k else (k1, v1) :: eraseAssoc rest k

/-- The two maps held by the `SimpleRtmpStreamingApp` instance. -/
structure AppState where
  activeUserStates : List (String × UserStreamState)
  persistentUserSettings : List (String × UserPersistentSettings)
  deriving DecidableEq, Repr

/-- JavaScript `a || b` on strings: the empty string (like `undefined`)
is falsy and falls through to `b`. -/
def jsOrS (a b : String) : String :=
  if a = "" then b else a

/-- `matchesAt pat s` holds when `pat` matches `s` at its head (embeds
a character-by-character anchored comparison, kernel-evaluable on
concrete inputs). -/
def matchesAt : List Char → List Char → Bool
  | [], _ => true
  | _ :: _, [] => false
  | p :: ps, c :: cs => p == c && matchesAt ps cs

/-- JavaScript `s.startsWith(pat)` on the character lists of the two
strings. -/
def strStartsWith (s pat : String) : Bool :=
  matchesAt pat.toList s.toList

/-- `containsPat pat s` embeds JavaScript `s.includes(pat)`: `pat` occurs
as a contiguous run somewhere in `s`. -/
def containsPat (pat : List Char) : List Char → Bool
  | [] => matchesAt pat []
  | c :: cs => matchesAt pat (c :: cs) || containsPat pat cs

/-- The process-wide `defaultRtmpUrl` field. -/
def defaultRtmpUrl : String := "rtmp://0.0.0.0/s/streamKey"

/-- `getInitialStreamStatus()`: a fresh `stopped` direct status. -/
def getInitialStreamStatus (now : Nat) : RtmpStreamStatus :=
  { msgType := MsgType.rtmpStreamStatus
    status := StreamPhase.stopped
    errorDetails := none
    timestamp := now }

/-- Ordered trace of state writes and transport requests issued by a
controller operation. -/
inductive Event where
  | sessionUrlWrite (userId : String) (url : String)
  | transportStartStream (url : String)
  | transportStopStream
  | transportStartManaged
  | transportStopManaged
  deriving DecidableEq, Repr

/-- Result of a controller operation: the outcome surfaced to the caller,
the app state after the operation, and the ordered trace of session-url
writes and transport requests it issued. -/
structure OpResult (α : Type) where
  outcome : Except String α
  state : AppState
  trace : List Event
  deriving Repr

/-- Embeds `setRtmpUrlForUser(userId, newUrl)` from `src/unnamed/part_000`
lines 55-80. In the source `newUrl` is typed `string`, so the
`typeof newUrl !== 'string'` arm of the guard is unreachable in the
embedding; the guard reduces to the empty-string check. The `Bool` in the
result records whether the non-fatal scheme `console.warn` fired. The
`showTextWall` notification to a live session is a pure UI side effect
and is not modelled. -/
def setRtmpUrlForUser (st : AppState) (userId : String) (newUrl : String) :
    Except String (AppState × Bool) :=
  if newUrl = "" then
    Except.error "RTMP URL must be a non-empty string"
  else
    let warned := !(strStartsWith newUrl "rtmp://" || strStartsWith newUrl "rtmps://")
    let persistent1 := insertAssoc st.persistentUserSettings userId { rtmpUrl := newUrl }
    let active1 :=
      match lookupAssoc st.activeUserStates userId with
      | some us => insertAssoc st.activeUserStates userId { us with rtmpUrl := newUrl }
      | none => st.activeUserStates
    Except.ok
      ({ activeUserStates := active1, persistentUserSettings := persistent1 }, warned)

/-- Embeds `getRtmpUrlForUser(userId)` from `src/unnamed/part_000` lines
87-95: persistent storage first, then active state, then the default
(via the falsy `||` chain). -/
def getRtmpUrlForUser (st : AppState) (userId : String) : String :=
  match lookupAssoc st.persistentUserSettings userId with
  | some p => p.rtmpUrl
  | none =>
    jsOrS
      (match lookupAssoc st.activeUserStates userId with
       | some us => us.rtmpUrl
       | none => "")
      defaultRtmpUrl

/-- Embeds `startStreamForUser(userId, rtmpUrl?)` from
`src/unnamed/part_000` lines 129-154. `rtmpUrl?` is the optional URL
override; `transport` is the response of the single awaited
`session.camera.startStream` call. The source mutates
`userState.rtmpUrl = urlToUse` before awaiting the transport call, so the
trace lists the `sessionUrlWrite` ahead of the `transportStartStream`
request. -/
def startStreamForUser (st : AppState) (userId : String)
    (rtmpUrlOverride : Option String) (transport : Except String Unit)
    (now : Nat) : OpResult Unit :=
  match lookupAssoc st.activeUserStates userId with
  | none =>
    { outcome := Except.error "No active session for user to start stream."
      state := st
      trace := [] }
  | some us =>
    let urlToUse := jsOrS (rtmpUrlOverride.getD "") (jsOrS us.rtmpUrl defaultRtmpUrl)
    let us1 := { us with rtmpUrl := urlToUse }
    let st1 : AppState :=
      { st with activeUserStates := insertAssoc st.activeUserStates userId us1 }
    match transport with
    | Except.ok _ =>
      { outcome := Except.ok ()
        state := st1
        trace := [Event.sessionUrlWrite userId urlToUse,
                  Event.transportStartStream urlToUse] }
    | Except.error msg =>
      let us2 := { us1 with
        streamStatus := { getInitialStreamStatus now with
          status := StreamPhase.error
          errorDetails := some msg
          timestamp := now } }
      { outcome := Except.error msg
        state := { st1 with
          activeUserStates := insertAssoc st1.activeUserStates userId us2 }
        trace := [Event.sessionUrlWrite userId urlToUse,
                  Event.transportStartStream urlToUse] }

/-- Embeds `stopStreamForUser(userId)` from `src/unnamed/part_000` lines
157-175. The source checks only that a `userState` exists; it performs no
inspection of `streamStatus` before forwarding the stop request to the
transport. -/
def stopStreamForUser (st : AppState) (userId : String)
    (transport : Except String Unit) (now : Nat) : OpResult Unit :=
  match lookupAssoc st.activeUserStates userId with
  | none =>
    { outcome := Except.error "No active session for user to stop stream."
      state := st
      trace := [] }
  | some us =>
    match transport with
    | Except.ok _ =>
      { outcome := Except.ok ()
        state := st
        trace := [Event.transportStopStream] }
    | Except.error msg =>
      let us1 := { us with
        streamStatus := { getInitialStreamStatus now with
          status := StreamPhase.error
          errorDetails := some msg
          timestamp := now } }
      { outcome := Except.error msg
        state := { st with
          activeUserStates := insertAssoc st.activeUserStates userId us1 }
        trace := [Event.transportStopStream] }

/-- Embeds `startManagedStreamForUser(userId)` from `src/unnamed/part_000`
lines 178-214: on success eagerly seeds `managedStreamStatus` to
`initializing` with the returned URLs; on failure records an `error`
managed status and re-raises. -/
def startManagedStreamForUser (st : AppState) (userId : String)
    (transport : Except String ManagedUrls) (now : Nat) : OpResult ManagedUrls :=
  match lookupAssoc st.activeUserStates userId with
  | none =>
    { outcome := Except.error "No active session for user to start managed stream."
      state := st
      trace := [] }
  | some us =>
    match transport with
    | Except.ok urls =>
      let us1 := { us with
        managedStreamStatus := some
          { msgType := MsgType.managedStreamStatus
            status := StreamPhase.initializing
            hlsUrl := some urls.hlsUrl
            dashUrl := some urls.dashUrl
            webrtcUrl := some urls.webrtcUrl
            streamId := some urls.streamId
            message := none
            timestamp := now } }
      { outcome := Except.ok urls
        state := { st with
          activeUserStates := insertAssoc st.activeUserStates userId us1 }
        trace := [Event.transportStartManaged] }
    | Except.error msg =>
      let us1 := { us with
        managedStreamStatus := some
          { msgType := MsgType.managedStreamStatus
            status := StreamPhase.error
            hlsUrl := none
            dashUrl := none
            webrtcUrl := none
            streamId := none
            message := some msg
            timestamp := now } }
      { outcome := Except.error msg
        state := { st with
          activeUserStates := insertAssoc st.activeUserStates userId us1 }
        trace := [Event.transportStartManaged] }

/-- Embeds `stopManagedStreamForUser(userId)` from `src/unnamed/part_000`
lines 217-255. The `hasLocalManagedStream` / `isManagedStreamActive`
computation in the source feeds a `console.log` only and is not part of
the decision to forward; the stop is always forwarded. On success the
source deliberately does not clear `managedStreamStatus` (the
`userState.managedStreamStatus = null` line is commented out). On failure
an `error` managed status is recorded only when `managedStreamStatus` is
already present. -/
def stopManagedStreamForUser (st : AppState) (userId : String)
    (transport : Except String Unit) (now : Nat) : OpResult Unit :=
  match lookupAssoc st.activeUserStates userId with
  | none =>
    { outcome := Except.error "No active session for user to stop managed stream."
      state := st
      trace := [] }
  | some us =>
    match transport with
    | Except.ok _ =>
      { outcome := Except.ok ()
        state := st
        trace := [Event.transportStopManaged] }
    | Except.error msg =>
      match us.managedStreamStatus with
      | some m =>
        let us1 := { us with
          managedStreamStatus := some { m with
            status := StreamPhase.error
            message := some msg
            timestamp := now } }
        { outcome := Except.error msg
          state := { st with
            activeUserStates := insertAssoc st.activeUserStates userId us1 }
          trace := [Event.transportStopManaged] }
      | none =>
        { outcome := Except.error msg
          state := st
          trace := [Event.transportStopManaged] }

/-- Embeds `getStreamStatusForUser(userId)` from `src/unnamed/part_000`
lines 110-112: the live session's direct status, else a fresh `stopped`
status. -/
def getStreamStatusForUser (st : AppState) (userId : String) (now : Nat) :
    RtmpStreamStatus :=
  match lookupAssoc st.activeUserStates userId with
  | some us => us.streamStatus
  | none => getInitialStreamStatus now

/-- Embeds the authenticated branch of `GET /api/stream-info` from
`src/src/webview.ts` lines 48-63: the JSON body's `rtmpUrl` and
`streamStatus` fields for an authenticated `userId`. -/
def streamInfoForUser (st : AppState) (userId : String) (now : Nat) :
    String × RtmpStreamStatus :=
  (getRtmpUrlForUser st userId, getStreamStatusForUser st userId now)

/-- Embeds the session-creation prologue of `onSession` from
`src/unnamed/part_000` lines 257-271: seeds the new `UserStreamState`
from persistent settings (else the default URL), initial `stopped`
direct status, absent managed status, and writes it into
`activeUserStates` unconditionally (`Map.set`, overwriting any existing
entry for the same `userId`). -/
def onSession (st : AppState) (userId : String) (now : Nat) : AppState :=
  let userRtmpUrl :=
    jsOrS
      (match lookupAssoc st.persistentUserSettings userId with
       | some p => p.rtmpUrl
       | none => "")
      defaultRtmpUrl
  let userState : UserStreamState :=
    { rtmpUrl := userRtmpUrl
      streamStatus := getInitialStreamStatus now
      managedStreamStatus := none }
  { st with activeUserStates := insertAssoc st.activeUserStates userId userState }

/-- Embeds the `onDisconnected` handler from `src/unnamed/part_000` lines
360-367: deletes only the active session entry; the persistent settings
map is untouched. -/
def onDisconnected (st : AppState) (userId : String) : AppState :=
  { st with activeUserStates := eraseAssoc st.activeUserStates userId }

/-- Embeds the `session.camera.onStreamStatus` handler from
`src/unnamed/part_000` lines 333-359: overwrites `streamStatus` with the
incoming status plus a fresh timestamp; on `stopped` additionally
re-asserts the message type and forces the phase to `stopped`; drops the
event when no active state exists for the user. -/
def onStreamStatus (st : AppState) (userId : String)
    (status : RtmpStreamStatus) (now : Nat) : AppState :=
  match lookupAssoc st.activeUserStates userId with
  | none => st
  | some us =>
    let merged := { status with timestamp := now }
    let us1 := { us with streamStatus := merged }
    let us2 :=
      if status.status = StreamPhase.stopped then
        { us1 with streamStatus := { merged with
            msgType := MsgType.rtmpStreamStatus
            status := StreamPhase.stopped } }
      else us1
    { st with activeUserStates := insertAssoc st.activeUserStates userId us2 }

/-- Embeds the `session.camera.onManagedStreamStatus` handler from
`src/unnamed/part_000` lines 280-306: stores the incoming status plus a
fresh timestamp; the `stopped` branch then clears `managedStreamStatus`
to `null`; drops the event when no active state exists for the user. -/
def onManagedStreamStatus (st : AppState) (userId : String)
    (status : ManagedStreamStatus) (now : Nat) : AppState :=
  match lookupAssoc st.activeUserStates userId with
  | none => st
  | some us =>
    let merged := { status with timestamp := now }
    let us1 := { us with managedStreamStatus := some merged }
    let us2 :=
      if status.status = StreamPhase.stopped then
        { us1 with managedStreamStatus := none }
      else us1
    { st with activeUserStates := insertAssoc st.activeUserStates userId us2 }

/-- JavaScript `text.toLowerCase()` on the character list of a string
(ASCII case mapping, as in the phrase alphabet of the handler). -/
def lowerChars (text : String) : List Char :=
  text.toList.map Char.toLower

/-- The stream commands the transcript handler can dispatch:
`session.streaming.stopStream()` and
`session.streaming.requestStream(...)`. -/
inductive VoiceCmd where
  | stop
  | start
  deriving DecidableEq, Repr

/-- Embeds the `session.events.onTranscription` handler from
`src/src/index.ts` lines 202-237, projected onto the stream commands it
dispatches, in order. The handler runs three independent `if` statements
on a final segment: the `"photo"` check (dispatches no stream command,
omitted), then the `"stop streaming"` check, then the `"start streaming"`
check — there is no `else` linking the latter two. Non-final segments are
only displayed. -/
def onTranscription (text : String) (isFin : Bool) : List VoiceCmd :=
  (if isFin && containsPat "stop streaming".toList (lowerChars text) then
    [VoiceCmd.stop]
  else []) ++
  (if isFin && containsPat "start streaming".toList (lowerChars text) then
    [VoiceCmd.start]
  else [])

/-- Transport requests in a trace (excludes session-state writes). -/
def isTransportEvent : Event → Bool
  | Event.sessionUrlWrite _ _ => false
  | Event.transportStartStream _ => true
  | Event.transportStopStream => true
  | Event.transportStartManaged => true
  | Event.transportStopManaged => true

/-- A live session entry used as the pre-existing state in concrete
scenarios: an active direct stream on a custom URL. -/
def priorUserState : UserStreamState :=
  { rtmpUrl := "rtmp://old.example/s/k"
    streamStatus :=
      { msgType := MsgType.rtmpStreamStatus
        status := StreamPhase.active
        errorDetails := none
        timestamp := 3 }
    managedStreamStatus := none }

/-- App state in which user `u1` is already connected (no persistent
settings). -/
def priorAppState : AppState :=
  { activeUserStates := [("u1", priorUserState)]
    persistentUserSettings := [] }

/-- An `active` managed status used in concrete scenarios. -/
def managedW : ManagedStreamStatus :=
  { msgType := MsgType.managedStreamStatus
    status := StreamPhase.active
    hlsUrl := some "https://h.example/x.m3u8"
    dashUrl := some "https://h.example/x.mpd"
    webrtcUrl := some "https://h.example/x.webrtc"
    streamId := some "sid-1"
    message := none
    timestamp := 2 }

/-- A live session entry whose managed stream status is present. -/
def managedUserState : UserStreamState :=
  { priorUserState with managedStreamStatus := some managedW }

/-- App state in which user `u1` is connected with a managed stream in
progress. -/
def managedAppState : AppState :=
  { activeUserStates := [("u1", managedUserState)]
    persistentUserSettings := [] }

/-- The empty app state: no connected users, no persistent settings. -/
def emptyAppState : AppState :=
  { activeUserStates := [], persistentUserSettings := [] }

/-- App state after `setRtmpUrlForUser(u1, "rtmp://persisted.example/s/p")`
on the empty state. -/
def setUrlAppState : AppState :=
  { activeUserStates := []
    persistentUserSettings :=
      [("u1", { rtmpUrl := "rtmp://persisted.example/s/p" })] }

/-- App state in which `u1` is connected with session URL
`rtmp://old.example/s/k` while the persistent entry holds a different
URL. -/
def persistAppState : AppState :=
  { activeUserStates := [("u1", priorUserState)]
    persistentUserSettings :=
      [("u1", { rtmpUrl := "rtmp://persisted.example/s/p" })] }

theorem lookupAssoc_insertAssoc_self {α : Type} (l : List (String × α))
    (k : String) (v : α) : lookupAssoc (insertAssoc l k v) k = some v := by
  induction l with
  | nil => simp [insertAssoc, lookupAssoc]
  | cons hd tl ih =>
    obtain ⟨k1, v1⟩ := hd
    by_cases h : k1 = k <;> simp [insertAssoc, lookupAssoc, h, ih]

theorem lookupAssoc_eraseAssoc_self {α : Type} (l : List (String × α))
    (k : String) : lookupAssoc (eraseAssoc l k) k = none := by
  induction l with
  | nil => simp [eraseAssoc, lookupAssoc]
  | cons hd tl ih =>
    obtain ⟨k1, v1⟩ := hd
    by_cases h : k1 = k <;> simp [eraseAssoc, lookupAssoc, h, ih]

/-- Claim C1: for every connected user, `startStreamForUser` resolves the
effective URL as the override when one is supplied, else the session's
current `rtmpUrl`, else the process-wide default, and writes the resolved
URL into the session's `rtmpUrl` field before issuing the transport start
request (the trace lists the write ahead of the single transport request,
and both carry the resolved URL; the post-state entry holds the resolved
URL whatever the transport outcome). -/
theorem C1_start_url_resolution (st : AppState) (userId : String)
    (us : UserStreamState) (override : Option String)
    (transport : Except String Unit) (now : Nat) (resolved : String)
    (hus : lookupAssoc st.activeUserStates userId = some us)
    (hov : ∀ u, override = some u → u ≠ "")
    (hres : resolved =
      override.getD (if us.rtmpUrl = "" then defaultRtmpUrl else us.rtmpUrl)) :
    (startStreamForUser st userId override transport now).trace =
      [Event.sessionUrlWrite userId resolved,
       Event.transportStartStream resolved] ∧
    ∃ us1,
      lookupAssoc (startStreamForUser st userId override transport
        now).state.activeUserStates userId = some us1 ∧
      us1.rtmpUrl = resolved := by
  have hurl : jsOrS (override.getD "") (jsOrS us.rtmpUrl defaultRtmpUrl) = resolved := by
    cases override with
    | none => simp [jsOrS, hres]
    | some u =>
      have hne : u ≠ "" := hov u rfl
      simp [jsOrS, hres, hne]
  cases transport with
  | ok u =>
    refine ⟨by simp [startStreamForUser, hus, hurl], ?_⟩
    refine ⟨{ us with rtmpUrl := resolved }, ?_, rfl⟩
    rw [← hurl]
    simp [startStreamForUser, hus, lookupAssoc_insertAssoc_self]
  | error msg =>
    refine ⟨by simp [startStreamForUser, hus, hurl], ?_⟩
    refine ⟨{ us with
      rtmpUrl := resolved
      streamStatus := { getInitialStreamStatus now with
        status := StreamPhase.error
        errorDetails := some msg
        timestamp := now } }, ?_, rfl⟩
    rw [← hurl]
    simp [startStreamForUser, hus, lookupAssoc_insertAssoc_self]

/-- Claim C2: for a connected user whose `managedStreamStatus` is present,
the only transition to absent is a managed-status event with phase
`stopped`. In particular: `stopManagedStreamForUser` never clears it
(any transport outcome); a managed-status event with phase `stopped`
clears it; a managed-status event with any other phase keeps it present;
and the remaining stream operations on the live session
(`startStreamForUser`, `stopStreamForUser`, `startManagedStreamForUser`,
`setRtmpUrlForUser`, the direct-status handler) all keep it present. -/
theorem C2_managed_absent_only_on_stopped_event (st : AppState)
    (userId : String) (us : UserStreamState) (m : ManagedStreamStatus)
    (hus : lookupAssoc st.activeUserStates userId = some us)
    (hm : us.managedStreamStatus = some m) :
    (∀ transport now, ∃ us1,
      lookupAssoc (stopManagedStreamForUser st userId transport
        now).state.activeUserStates userId = some us1 ∧
      us1.managedStreamStatus.isSome = true) ∧
    (∀ status now, status.status = StreamPhase.stopped → ∃ us1,
      lookupAssoc (onManagedStreamStatus st userId status
        now).activeUserStates userId = some us1 ∧
      us1.managedStreamStatus = none) ∧
    (∀ status now, status.status ≠ StreamPhase.stopped → ∃ us1,
      lookupAssoc (onManagedStreamStatus st userId status
        now).activeUserStates userId = some us1 ∧
      us1.managedStreamStatus.isSome = true) ∧
    (∀ override transport now, ∃ us1,
      lookupAssoc (startStreamForUser st userId override transport
        now).state.activeUserStates userId = some us1 ∧
      us1.managedStreamStatus.isSome = true) ∧
    (∀ transport now, ∃ us1,
      lookupAssoc (stopStreamForUser st userId transport
        now).state.activeUserStates userId = some us1 ∧
      us1.managedStreamStatus.isSome = true) ∧
    (∀ transport now, ∃ us1,
      lookupAssoc (startManagedStreamForUser st userId transport
        now).state.activeUserStates userId = some us1 ∧
      us1.managedStreamStatus.isSome = true) ∧
    (∀ newUrl st1 warned,
      setRtmpUrlForUser st userId newUrl = Except.ok (st1, warned) → ∃ us1,
      lookupAssoc st1.activeUserStates userId = some us1 ∧
      us1.managedStreamStatus.isSome = true) ∧
    (∀ status now, ∃ us1,
      lookupAssoc (onStreamStatus st userId status
        now).activeUserStates userId = some us1 ∧
      us1.managedStreamStatus.isSome = true) := by
  refine ⟨?_, ?_, ?_, ?_, ?_, ?_, ?_, ?_⟩
  · intro transport now
    cases transport with
    | ok u => exact ⟨us, by simp [stopManagedStreamForUser, hus], by simp [hm]⟩
    | error msg =>
      simp only [stopManagedStreamForUser, hus, hm]
      exact ⟨_, lookupAssoc_insertAssoc_self _ _ _, rfl⟩
  · intro status now hstop
    simp only [onManagedStreamStatus, hus, hstop, if_pos]
    exact ⟨_, lookupAssoc_insertAssoc_self _ _ _, rfl⟩
  · intro status now hstop
    simp only [onManagedStreamStatus, hus, if_neg hstop]
    exact ⟨_, lookupAssoc_insertAssoc_self _ _ _, rfl⟩
  · intro override transport now
    cases transport with
    | ok u =>
      simp only [startStreamForUser, hus]
      exact ⟨_, lookupAssoc_insertAssoc_self _ _ _, by simp [hm]⟩
    | error msg =>
      simp only [startStreamForUser, hus]
      exact ⟨_, lookupAssoc_insertAssoc_self _ _ _, by simp [hm]⟩
  · intro transport now
    cases transport with
    | ok u => exact ⟨us, by simp [stopStreamForUser, hus], by simp [hm]⟩
    | error msg =>
      simp only [stopStreamForUser, hus]
      exact ⟨_, lookupAssoc_insertAssoc_self _ _ _, by simp [hm]⟩
  · intro transport now
    cases transport with
    | ok urls =>
      simp only [startManagedStreamForUser, hus]
      exact ⟨_, lookupAssoc_insertAssoc_self _ _ _, rfl⟩
    | error msg =>
      simp only [startManagedStreamForUser, hus]
      exact ⟨_, lookupAssoc_insertAssoc_self _ _ _, rfl⟩
  · intro newUrl st1 warned hset
    by_cases hne : newUrl = ""
    · simp [setRtmpUrlForUser, hne] at hset
    · simp only [setRtmpUrlForUser, if_neg hne] at hset
      rw [Except.ok.injEq, Prod.mk.injEq] at hset
      obtain ⟨hst1, hw⟩ := hset
      subst hst1
      simp only [hus]
      exact ⟨_, lookupAssoc_insertAssoc_self _ _ _, by simp [hm]⟩
  · intro status now
    by_cases hstop : status.status = StreamPhase.stopped
    · simp only [onStreamStatus, hus, hstop, if_pos]
      exact ⟨_, lookupAssoc_insertAssoc_self _ _ _, by simp [hm]⟩
    · simp only [onStreamStatus, hus, if_neg hstop]
      exact ⟨_, lookupAssoc_insertAssoc_self _ _ _, by simp [hm]⟩

/-- Claim C3 counterexample: with `u1` already connected, a second
`onSession` for `u1` does not fail and does not leave the existing entry
unchanged — the source runs `activeUserStates.set(userId, userState)`
unconditionally, so the prior entry is silently replaced by a fresh
default-seeded one. -/
theorem C3_counterexample :
    lookupAssoc (onSession priorAppState "u1" 9).activeUserStates "u1" =
      some { rtmpUrl := defaultRtmpUrl
             streamStatus := getInitialStreamStatus 9
             managedStreamStatus := none } ∧
    lookupAssoc (onSession priorAppState "u1" 9).activeUserStates "u1" ≠
      some priorUserState := by
  exact ⟨by decide, by decide⟩

/-- Claim C3 amended: requesting session creation for a `userId` that
already has a live `SessionState` does not fail; the existing entry is
silently overwritten with a fresh one seeded from persistent settings
(else the default URL), with a `stopped` direct status and an absent
managed status, and the persistent settings map is untouched. -/
theorem C3_reconnect_overwrites (st : AppState) (userId : String) (now : Nat)
    (_h : (lookupAssoc st.activeUserStates userId).isSome = true) :
    lookupAssoc (onSession st userId now).activeUserStates userId =
      some { rtmpUrl :=
               jsOrS (match lookupAssoc st.persistentUserSettings userId with
                 | some p => p.rtmpUrl
                 | none => "") defaultRtmpUrl
             streamStatus := getInitialStreamStatus now
             managedStreamStatus := none } ∧
    (onSession st userId now).persistentUserSettings =
      st.persistentUserSettings := by
  exact ⟨by simp [onSession, lookupAssoc_insertAssoc_self], rfl⟩

/-- Witness for C3: the amended overwrite behaviour at the concrete
already-connected state. -/
theorem C3_reconnect_overwrites_witness :
    lookupAssoc (onSession priorAppState "u1" 9).activeUserStates "u1" =
      some { rtmpUrl :=
               jsOrS (match lookupAssoc priorAppState.persistentUserSettings "u1" with
                 | some p => p.rtmpUrl
                 | none => "") defaultRtmpUrl
             streamStatus := getInitialStreamStatus 9
             managedStreamStatus := none } ∧
    (onSession priorAppState "u1" 9).persistentUserSettings =
      priorAppState.persistentUserSettings :=
  C3_reconnect_overwrites priorAppState "u1" 9 (by decide)

/-- Claim C4 counterexample: the transcript handler's two keyword checks
are independent `if` statements, not mutually exclusive — the final
segment `"stop streaming and start streaming"` contains
`"stop streaming"` yet dispatches a start command in addition to the stop
command, contradicting "a segment containing \x22stop streaming\x22
triggers exactly one stopDirect call and zero startDirect calls". -/
theorem C4_counterexample :
    containsPat "stop streaming".toList
      (lowerChars "stop streaming and start streaming") = true ∧
    onTranscription "stop streaming and start streaming" true =
      [VoiceCmd.stop, VoiceCmd.start] := by
  exact ⟨by decide, by decide⟩

/-- Claim C4 amended: both substring checks are case-insensitive and run
independently, in stop-then-start order, on final segments only. A final
segment containing `"stop streaming"` but not `"start streaming"`
(case-insensitively) triggers exactly one stop and zero starts; a final
segment containing both triggers one stop followed by one start; a
non-final segment triggers nothing. -/
theorem C4_transcript_dispatch (text : String) :
    onTranscription text false = [] ∧
    (containsPat "stop streaming".toList (lowerChars text) = true →
     containsPat "start streaming".toList (lowerChars text) = false →
     onTranscription text true = [VoiceCmd.stop]) ∧
    (containsPat "stop streaming".toList (lowerChars text) = true →
     containsPat "start streaming".toList (lowerChars text) = true →
     onTranscription text true = [VoiceCmd.stop, VoiceCmd.start]) := by
  refine ⟨by simp [onTranscription], ?_, ?_⟩
  · intro h1 h2
    simp only [onTranscription, Bool.true_and, h1, h2]
    simp
  · intro h1 h2
    simp only [onTranscription, Bool.true_and, h1, h2]
    simp

/-- Witness for C4: the amended dispatch behaviour at a concrete
mixed-case final segment containing only the stop keyword. -/
theorem C4_transcript_dispatch_witness :
    onTranscription "Please STOP Streaming now" true = [VoiceCmd.stop] :=
  (C4_transcript_dispatch "Please STOP Streaming now").2.1 (by decide) (by decide)

/-- Claim C5: for a connected user, when the transport start request
fails, `startStreamForUser` records an `error` direct status carrying the
failure detail and re-raises the error, having issued exactly one
transport request (no retry); when the request succeeds, the session's
`streamStatus` is left unchanged. -/
theorem C5_start_failure_handling (st : AppState) (userId : String)
    (us : UserStreamState) (override : Option String) (msg : String)
    (now : Nat)
    (hus : lookupAssoc st.activeUserStates userId = some us) :
    ((startStreamForUser st userId override (Except.error msg) now).outcome =
        Except.error msg ∧
     (∃ us1,
       lookupAssoc (startStreamForUser st userId override (Except.error msg)
         now).state.activeUserStates userId = some us1 ∧
       us1.streamStatus.status = StreamPhase.error ∧
       us1.streamStatus.errorDetails = some msg) ∧
     ((startStreamForUser st userId override (Except.error msg)
         now).trace.filter isTransportEvent).length = 1) ∧
    ((startStreamForUser st userId override (Except.ok ()) now).outcome =
        Except.ok () ∧
     ∃ us1,
       lookupAssoc (startStreamForUser st userId override (Except.ok ())
         now).state.activeUserStates userId = some us1 ∧
       us1.streamStatus = us.streamStatus) := by
  refine ⟨⟨?_, ?_, ?_⟩, ?_, ?_⟩
  · simp [startStreamForUser, hus]
  · simp only [startStreamForUser, hus]
    exact ⟨_, lookupAssoc_insertAssoc_self _ _ _, rfl, rfl⟩
  · simp [startStreamForUser, hus, isTransportEvent]
  · simp [startStreamForUser, hus]
  · simp only [startStreamForUser, hus]
    exact ⟨_, lookupAssoc_insertAssoc_self _ _ _, rfl⟩

/-- Claim C6: for a user whose session is connected, `stopStreamForUser`
performs no local check of the current stream phase (the session entry
`us`, including its `streamStatus`, is arbitrary here): two consecutive
calls with no intervening status event both avoid the local
`NoActiveSession` failure, each surfaces its own transport outcome, and
each forwards exactly one stop request to the transport. -/
theorem C6_double_stop_forwarded (st : AppState) (userId : String)
    (us : UserStreamState) (t1 t2 : Except String Unit) (n1 n2 : Nat)
    (hus : lookupAssoc st.activeUserStates userId = some us) :
    (stopStreamForUser st userId t1 n1).outcome = t1 ∧
    (stopStreamForUser st userId t1 n1).trace = [Event.transportStopStream] ∧
    (stopStreamForUser (stopStreamForUser st userId t1 n1).state userId t2
      n2).outcome = t2 ∧
    (stopStreamForUser (stopStreamForUser st userId t1 n1).state userId t2
      n2).trace = [Event.transportStopStream] := by
  have step : ∀ (s : AppState) (u : UserStreamState) (t : Except String Unit)
      (n : Nat), lookupAssoc s.activeUserStates userId = some u →
      (stopStreamForUser s userId t n).outcome = t ∧
      (stopStreamForUser s userId t n).trace = [Event.transportStopStream] ∧
      ∃ u1, lookupAssoc (stopStreamForUser s userId t
        n).state.activeUserStates userId = some u1 := by
    intro s u t n hu
    cases t with
    | ok v => exact ⟨by simp [stopStreamForUser, hu], by simp [stopStreamForUser, hu], u, by simp [stopStreamForUser, hu]⟩
    | error msg =>
      refine ⟨by simp [stopStreamForUser, hu], by simp [stopStreamForUser, hu], ?_⟩
      simp only [stopStreamForUser, hu]
      exact ⟨_, lookupAssoc_insertAssoc_self _ _ _⟩
  obtain ⟨h1, h2, u1, hu1⟩ := step st us t1 n1 hus
  obtain ⟨h3, h4, u2, hu2⟩ := step _ u1 t2 n2 hu1
  exact ⟨h1, h2, h3, h4⟩

/-- Claim C7: after a successful `setRtmpUrlForUser(u, X)`, disconnecting
`u` removes only the active session state (the persistent settings map is
unchanged by the disconnect), and a subsequent reconnect seeds the new
session's `rtmpUrl` from the persistent entry, so it equals `X`. -/
theorem C7_url_survives_reconnect (st : AppState) (u url : String)
    (st1 : AppState) (warned : Bool) (now : Nat)
    (hset : setRtmpUrlForUser st u url = Except.ok (st1, warned)) :
    (onDisconnected st1 u).persistentUserSettings =
      st1.persistentUserSettings ∧
    ∃ us1,
      lookupAssoc (onSession (onDisconnected st1 u) u
        now).activeUserStates u = some us1 ∧
      us1.rtmpUrl = url := by
  by_cases hne : url = ""
  · simp [setRtmpUrlForUser, hne] at hset
  · simp only [setRtmpUrlForUser, if_neg hne] at hset
    rw [Except.ok.injEq, Prod.mk.injEq] at hset
    obtain ⟨hst1, hw⟩ := hset
    subst hst1
    refine ⟨rfl, ?_⟩
    simp only [onSession, onDisconnected, lookupAssoc_insertAssoc_self]
    exact ⟨_, rfl, by simp [jsOrS, hne]⟩

/-- Claim C8: `setRtmpUrlForUser` fails with the invalid-input error
exactly when the URL is empty (the "not a string" arm of the source guard
is unreachable for a `string`-typed argument); any non-empty URL is
stored in the persistent settings, and the non-fatal scheme warning — and
only the warning — fires exactly when the URL starts with neither
`rtmp://` nor `rtmps://`. -/
theorem C8_setUrl_validation (st : AppState) (u url : String) :
    (url = "" →
      setRtmpUrlForUser st u url =
        Except.error "RTMP URL must be a non-empty string") ∧
    (url ≠ "" → ∃ st1 warned,
      setRtmpUrlForUser st u url = Except.ok (st1, warned) ∧
      lookupAssoc st1.persistentUserSettings u = some { rtmpUrl := url } ∧
      (warned = true ↔
        strStartsWith url "rtmp://" = false ∧
        strStartsWith url "rtmps://" = false)) := by
  constructor
  · intro h
    simp [setRtmpUrlForUser, h]
  · intro hne
    refine ⟨{ activeUserStates :=
                (match lookupAssoc st.activeUserStates u with
                 | some us =>
                   insertAssoc st.activeUserStates u { us with rtmpUrl := url }
                 | none => st.activeUserStates),
              persistentUserSettings :=
                insertAssoc st.persistentUserSettings u { rtmpUrl := url } },
      !(strStartsWith url "rtmp://" || strStartsWith url "rtmps://"),
      ?_, ?_, ?_⟩
    · simp only [setRtmpUrlForUser, if_neg hne]
    · exact lookupAssoc_insertAssoc_self _ _ _
    · cases h1 : strStartsWith url "rtmp://" <;>
        cases h2 : strStartsWith url "rtmps://" <;> simp [h1, h2]

/-- Claim C9: for a user with a persistent settings entry, the stream-info
query reports the persisted URL — persistent storage takes precedence
over the live session's `rtmpUrl` in `getRtmpUrlForUser` — and
`startStreamForUser` (with any override) never touches the persistent
map, so the query still reports the persisted URL afterwards even though
the session's effective URL changed. -/
theorem C9_persistent_precedence (st : AppState) (u : String)
    (p : UserPersistentSettings) (now : Nat)
    (hp : lookupAssoc st.persistentUserSettings u = some p) :
    (streamInfoForUser st u now).1 = p.rtmpUrl ∧
    (∀ override transport now2,
      (startStreamForUser st u override transport
        now2).state.persistentUserSettings = st.persistentUserSettings ∧
      (streamInfoForUser (startStreamForUser st u override transport
        now2).state u now).1 = p.rtmpUrl) := by
  have hpersist : ∀ override transport now2,
      (startStreamForUser st u override transport
        now2).state.persistentUserSettings = st.persistentUserSettings := by
    intro override transport now2
    cases hl : lookupAssoc st.activeUserStates u with
    | none => simp [startStreamForUser, hl]
    | some us =>
      cases transport with
      | ok v => simp [startStreamForUser, hl]
      | error msg => simp [startStreamForUser, hl]
  refine ⟨by simp [streamInfoForUser, getRtmpUrlForUser, hp], ?_⟩
  intro override transport now2
  refine ⟨hpersist override transport now2, ?_⟩
  simp [streamInfoForUser, getRtmpUrlForUser, hpersist override transport now2, hp]

/-- Claim C10: for a connected user, when the transport stop request of
`stopManagedStreamForUser` fails, an `error` phase carrying the failure
message is recorded in `managedStreamStatus` only if it was already
present; when it was absent, the error is re-raised but the session state
is left entirely unchanged. -/
theorem C10_stop_managed_failure (st : AppState) (userId : String)
    (us : UserStreamState) (msg : String) (now : Nat)
    (hus : lookupAssoc st.activeUserStates userId = some us) :
    (∀ m, us.managedStreamStatus = some m →
      stopManagedStreamForUser st userId (Except.error msg) now =
        { outcome := Except.error msg
          state := { st with
            activeUserStates :=
              insertAssoc st.activeUserStates userId
                { us with
                  managedStreamStatus :=
                    some { m with
                      status := StreamPhase.error
                      message := some msg
                      timestamp := now } } }
          trace := [Event.transportStopManaged] }) ∧
    (us.managedStreamStatus = none →
      stopManagedStreamForUser st userId (Except.error msg) now =
        { outcome := Except.error msg
          state := st
          trace := [Event.transportStopManaged] }) := by
  constructor
  · intro m hm
    simp [stopManagedStreamForUser, hus, hm]
  · intro hm
    simp [stopManagedStreamForUser, hus, hm]

/-- Witness for C1: concrete start with a URL override on a connected
user. -/
theorem C1_start_url_resolution_witness :
    (startStreamForUser priorAppState "u1" (some "rtmp://override.example/s/o")
      (Except.ok ()) 7).trace =
      [Event.sessionUrlWrite "u1" "rtmp://override.example/s/o",
       Event.transportStartStream "rtmp://override.example/s/o"] ∧
    ∃ us1,
      lookupAssoc (startStreamForUser priorAppState "u1"
        (some "rtmp://override.example/s/o") (Except.ok ())
        7).state.activeUserStates "u1" = some us1 ∧
      us1.rtmpUrl = "rtmp://override.example/s/o" :=
  C1_start_url_resolution priorAppState "u1" priorUserState
    (some "rtmp://override.example/s/o") (Except.ok ()) 7
    "rtmp://override.example/s/o" rfl
    (by intro u h; injection h with h2; subst h2; decide) rfl

/-- Witness for C2: a successful managed stop on a session with a live
managed status leaves the status present. -/
theorem C2_managed_witness :
    ∃ us1,
      lookupAssoc (stopManagedStreamForUser managedAppState "u1"
        (Except.ok ()) 9).state.activeUserStates "u1" = some us1 ∧
      us1.managedStreamStatus.isSome = true :=
  (C2_managed_absent_only_on_stopped_event managedAppState "u1"
    managedUserState managedW rfl rfl).1 (Except.ok ()) 9

/-- Witness for C5: concrete failing and succeeding starts on a connected
user. -/
theorem C5_start_failure_handling_witness :
    ((startStreamForUser priorAppState "u1" none (Except.error "boom")
        5).outcome = Except.error "boom" ∧
     (∃ us1,
       lookupAssoc (startStreamForUser priorAppState "u1" none
         (Except.error "boom") 5).state.activeUserStates "u1" = some us1 ∧
       us1.streamStatus.status = StreamPhase.error ∧
       us1.streamStatus.errorDetails = some "boom") ∧
     ((startStreamForUser priorAppState "u1" none (Except.error "boom")
         5).trace.filter isTransportEvent).length = 1) ∧
    ((startStreamForUser priorAppState "u1" none (Except.ok ())
        5).outcome = Except.ok () ∧
     ∃ us1,
       lookupAssoc (startStreamForUser priorAppState "u1" none
         (Except.ok ()) 5).state.activeUserStates "u1" = some us1 ∧
       us1.streamStatus = priorUserState.streamStatus) :=
  C5_start_failure_handling priorAppState "u1" priorUserState none "boom" 5 rfl

/-- Witness for C6: two consecutive stops on a connected user whose
direct stream status is `active`. -/
theorem C6_double_stop_forwarded_witness :
    (stopStreamForUser priorAppState "u1" (Except.ok ()) 4).outcome =
      Except.ok () ∧
    (stopStreamForUser priorAppState "u1" (Except.ok ()) 4).trace =
      [Event.transportStopStream] ∧
    (stopStreamForUser (stopStreamForUser priorAppState "u1" (Except.ok ())
      4).state "u1" (Except.ok ()) 5).outcome = Except.ok () ∧
    (stopStreamForUser (stopStreamForUser priorAppState "u1" (Except.ok ())
      4).state "u1" (Except.ok ()) 5).trace = [Event.transportStopStream] :=
  C6_double_stop_forwarded priorAppState "u1" priorUserState (Except.ok ())
    (Except.ok ()) 4 5 rfl

/-- Witness for C7: set a URL on the empty state, disconnect, reconnect;
the reconnected session carries the persisted URL. -/
theorem C7_url_survives_reconnect_witness :
    (onDisconnected setUrlAppState "u1").persistentUserSettings =
      setUrlAppState.persistentUserSettings ∧
    ∃ us1,
      lookupAssoc (onSession (onDisconnected setUrlAppState "u1") "u1"
        6).activeUserStates "u1" = some us1 ∧
      us1.rtmpUrl = "rtmp://persisted.example/s/p" :=
  C7_url_survives_reconnect emptyAppState "u1" "rtmp://persisted.example/s/p"
    setUrlAppState false 6 rfl

/-- Witness for C8: a non-empty URL with a non-RTMP scheme is stored and
only warned about. -/
theorem C8_setUrl_validation_witness :
    ∃ st1 warned,
      setRtmpUrlForUser emptyAppState "u1" "not-a-url" =
        Except.ok (st1, warned) ∧
      lookupAssoc st1.persistentUserSettings "u1" =
        some { rtmpUrl := "not-a-url" } ∧
      (warned = true ↔
        strStartsWith "not-a-url" "rtmp://" = false ∧
        strStartsWith "not-a-url" "rtmps://" = false) :=
  (C8_setUrl_validation emptyAppState "u1" "not-a-url").2 (by decide)

/-- Witness for C9: the stream-info URL is the persisted one, before and
after a start with a different override URL. -/
theorem C9_persistent_precedence_witness :
    (streamInfoForUser persistAppState "u1" 3).1 =
      "rtmp://persisted.example/s/p" ∧
    (streamInfoForUser (startStreamForUser persistAppState "u1"
      (some "rtmp://other.example/o") (Except.ok ()) 4).state "u1" 3).1 =
      "rtmp://persisted.example/s/p" :=
  ⟨(C9_persistent_precedence persistAppState "u1"
      { rtmpUrl := "rtmp://persisted.example/s/p" } 3 rfl).1,
   ((C9_persistent_precedence persistAppState "u1"
      { rtmpUrl := "rtmp://persisted.example/s/p" } 3 rfl).2
      (some "rtmp://other.example/o") (Except.ok ()) 4).2⟩

/-- Witness for C10: a failing managed stop with a present managed status
records the error phase in it. -/
theorem C10_stop_managed_failure_witness :
    stopManagedStreamForUser managedAppState "u1" (Except.error "halt") 8 =
      { outcome := Except.error "halt"
        state := { managedAppState with
          activeUserStates :=
            insertAssoc managedAppState.activeUserStates "u1"
              { managedUserState with
                managedStreamStatus :=
                  some { managedW with
                    status := StreamPhase.error
                    message := some "halt"
                    timestamp := 8 } } }
        trace := [Event.transportStopManaged] } :=
  (C10_stop_managed_failure managedAppState "u1" managedUserState "halt" 8
    rfl).1 managedW rfl
